import Mathlib

/-!
Shallow embedding of src/main.py of the z316_email_purchase repository: a
webhook-driven pipeline that generates an NFCe through the Tiny ERP HTTP API,
enriches the event with BigQuery analytics and sends a transactional email
through SendGrid.  External collaborators (HTTP transport, BigQuery, SendGrid)
are modelled as oracles supplying one outcome per attempt.  Exception message
strings carried by Python exceptions are not modelled, only the exception
class; time.sleep and the tenacity waits are recorded as log entries carrying
the slept duration in seconds, represented as rational numbers.
-/

set_option autoImplicit false

/-- Python/JSON values as manipulated by main.py: dicts, lists, strings,
numbers, booleans and None.  JSON numbers are modelled as integers; no code
path in main.py does arithmetic on them or compares them to anything but
string literals, so the integer/float distinction is immaterial. -/
inductive Json where
  | null
  | bool (b : Bool)
  | num (n : Int)
  | str (s : String)
  | arr (xs : List Json)
  | obj (kvs : List (String × Json))

/-- Python runtime errors that the dynamic attribute/subscript operations
appearing in main.py can raise besides the exception classes it defines. -/
inductive PyErr where
  | attributeError
  | typeError
  | keyError
  | indexError
deriving DecidableEq

/-- The closed error taxonomy of main.py: requests.RequestException,
the three exception classes defined at the top of the file, BigQuery
BadRequest, any other BigQuery failure, the generic Exception raised by
get_purchase_details on an empty result set, the Python runtime errors of
PyErr, and the tenacity RetryError that wraps the last attempt error once a
retry budget is exhausted. -/
inductive Err where
  | requestException
  | validationError
  | invalidTokenError
  | retryableError
  | pyError (e : PyErr)
  | badRequest
  | queryFailure
  | purchaseNotFound
  | retryError (inner : Err)
deriving DecidableEq

/-- The three Tiny ERP endpoints contacted through make_api_call. -/
inductive Endpoint where
  | gerarNota
  | obterLink
  | contatosPesquisa
deriving DecidableEq

/-- Observable external actions of one invocation: an HTTP GET against a Tiny
ERP endpoint, a BigQuery query execution, a SendGrid send call, or a blocking
sleep of the given number of seconds. -/
inductive Act where
  | erpCall (ep : Endpoint)
  | bqQuery
  | sendAttempt
  | sleep (t : ℚ)
deriving DecidableEq

/-- Outcome of one requests.get call: either a RequestException (covering
transport failure and raise_for_status) or a successfully decoded JSON
body. -/
inductive HttpResult where
  | exn
  | body (j : Json)

namespace Json

/-- First binding of a key in a Python dict (keys are unique in a dict, so
taking the first binding is faithful). -/
def lookup : List (String × Json) → String → Option Json
  | [], _ => none
  | (k, v) :: rest, key => if k == key then some v else lookup rest key

/-- Python truthiness of a value, as used by conditions like
if not dados_id. -/
def truthy : Json → Bool
  | .null => false
  | .bool b => b
  | .num n => n != 0
  | .str s => s != ""
  | .arr xs => !xs.isEmpty
  | .obj kvs => !kvs.isEmpty

/-- Whether the value is the Python None, as tested by the is None check. -/
def isNull : Json → Bool
  | .null => true
  | _ => false

/-- Python d.get(key, default): only defined on dicts, AttributeError on
every other value. -/
def get (j : Json) (k : String) (d : Json) : Except PyErr Json :=
  match j with
  | .obj kvs => .ok ((lookup kvs k).getD d)
  | _ => .error .attributeError

/-- Python x[key] subscript with a string key: KeyError on a dict missing the
key, TypeError on lists, strings and scalars. -/
def item (j : Json) (k : String) : Except PyErr Json :=
  match j with
  | .obj kvs =>
    match lookup kvs k with
    | some v => .ok v
    | none => .error .keyError
  | _ => .error .typeError

/-- Python x[0] subscript: first element of a list, first character of a
string, KeyError on a dict (whose keys are strings here, never the integer
0), TypeError on scalars. -/
def item0 (j : Json) : Except PyErr Json :=
  match j with
  | .arr [] => .error .indexError
  | .arr (x :: _) => .ok x
  | .str s => if s == "" then .error .indexError else .ok (.str (s.take 1))
  | .obj _ => .error .keyError
  | _ => .error .typeError

/-- Python equality of a value with a string literal: only a string with the
same characters compares equal. -/
def eqStr (j : Json) (s : String) : Bool :=
  match j with
  | .str t => t == s
  | _ => false

/-- Python key in x: key lookup on dicts, element equality on lists,
substring test on strings, TypeError on scalars. -/
def mem (k : String) (j : Json) : Except PyErr Bool :=
  match j with
  | .obj kvs => .ok (lookup kvs k).isSome
  | .arr xs => .ok (xs.any fun x => x.eqStr k)
  | .str s => .ok (decide (1 < (s.splitOn k).length))
  | _ => .error .typeError

end Json

/-- Result of one component run: the value returned or the exception raised,
together with the log of external actions performed. -/
structure R (α : Type) where
  res : Except Err α
  log : List Act

/-- json_data.get("retorno", \x7b\x7d).get("status_processamento"), as
recomputed by validate_json_payload at line 164. -/
def statusOf (j : Json) : Except PyErr Json :=
  match j.get "retorno" (Json.obj []) with
  | .error e => .error e
  | .ok r => r.get "status_processamento" Json.null

/-- json_data.get("retorno", \x7b\x7d).get("codigo_erro", ""), line 170. -/
def codigoOf (j : Json) : Except PyErr Json :=
  match j.get "retorno" (Json.obj []) with
  | .error e => .error e
  | .ok r => r.get "codigo_erro" (Json.str "")

/-- json_data.get("retorno", \x7b\x7d).get("erros", []), line 171. -/
def errosOf (j : Json) : Except PyErr Json :=
  match j.get "retorno" (Json.obj []) with
  | .error e => .error e
  | .ok r => r.get "erros" (Json.arr [])

/-- erros[0]["erro"] if erros else "Unknown error" (line 172).  Returns the
raw value; its rendering into the exception message is not modelled.  Note
that the subscripts can themselves raise when erros is truthy but not a list
of dicts. -/
def erro_message (erros : Json) : Except PyErr Json :=
  if erros.truthy then
    match erros.item0 with
    | .error e => .error e
    | .ok e0 => e0.item "erro"
  else .ok (Json.str "Unknown error")

/-- validate_json_payload (lines 162-176): classifies the response body by
the embedded status_processamento; returns () when the body passes (status
"3" or any unrecognised status), otherwise raises. -/
def validate_json_payload (json_data : Json) : Except Err Unit :=
  match statusOf json_data with
  | .error e => .error (.pyError e)
  | .ok status =>
    if status.eqStr "3" then .ok ()
    else if status.eqStr "2" then .error .validationError
    else if status.eqStr "1" then
      match codigoOf json_data, errosOf json_data with
      | .error e, _ => .error (.pyError e)
      | _, .error e => .error (.pyError e)
      | .ok codigo, .ok erros =>
        match erro_message erros with
        | .error e => .error (.pyError e)
        | .ok _ =>
          if codigo.eqStr "1" then .error .invalidTokenError
          else .error .retryableError
    else .ok ()

/-- The body of make_api_call for a single attempt: a RequestException from
requests.get propagates, otherwise the decoded body is validated and then
returned as-is. -/
def attemptOnce (r : HttpResult) : Except Err Json :=
  match r with
  | .exn => .error .requestException
  | .body j =>
    match validate_json_payload j with
    | .ok _ => .ok j
    | .error e => .error e

/-- retry_if_exception_type((requests.exceptions.RequestException,
RetryableError)): the retry predicate of the make_api_call decorator. -/
def isRetryableTiny : Err → Bool
  | .requestException => true
  | .retryableError => true
  | _ => false

/-- Python max on two rationals, written out so that it reduces in the
kernel. -/
def qmax (a b : ℚ) : ℚ := if a ≤ b then b else a

/-- Python min on two rationals, written out so that it reduces in the
kernel. -/
def qmin (a b : ℚ) : ℚ := if a ≤ b then a else b

/-- 2 ^ n over the rationals, written out so that it reduces in the
kernel. -/
def pow2 : Nat → ℚ
  | 0 => 1
  | n + 1 => 2 * pow2 n

/-- tenacity wait_exponential(multiplier, min, max): the sleep after the
failed attempt numbered attemptNumber (1-based) is
multiplier * 2 ^ (attemptNumber - 1) clamped below by min and above by
max. -/
def waitExponential (multiplier mn mx : ℚ) (attemptNumber : Nat) : ℚ :=
  qmax (qmax 0 mn) (qmin (multiplier * pow2 (attemptNumber - 1)) mx)

/-- The wait schedule of the make_api_call decorator:
wait_exponential(multiplier=2.5, min=30, max=187.5). -/
def tinyWait (attemptNumber : Nat) : ℚ :=
  waitExponential 2.5 30 187.5 attemptNumber

/-- The tenacity loop of make_api_call: run an attempt; on success return, on
a non-retryable exception raise it, on a retryable exception either stop with
a RetryError once stop_after_attempt(4) is reached or sleep the exponential
wait and try again.  fuel bounds the recursion and is initialised to the
attempt budget; n is the 1-based attempt number. -/
def makeApiCallGo (ep : Endpoint) (resp : Nat → HttpResult) :
    Nat → Nat → List Act → R Json
  | 0, _, log => ⟨.error (.retryError .requestException), log⟩
  | fuel + 1, n, log =>
    let log := log ++ [.erpCall ep]
    match attemptOnce (resp n) with
    | .ok j => ⟨.ok j, log⟩
    | .error e =>
      if isRetryableTiny e then
        if 4 ≤ n then ⟨.error (.retryError e), log⟩
        else makeApiCallGo ep resp fuel (n + 1) (log ++ [.sleep (tinyWait n)])
      else ⟨.error e, log⟩

/-- make_api_call (lines 137-159): the single-attempt body under the
decorator retry(wait=wait_exponential(multiplier=2.5, min=30, max=187.5),
stop=stop_after_attempt(4), retry=retry_if_exception_type(...)).  resp gives
the HTTP outcome of each attempt; ep records which endpoint the URL
addresses. -/
def make_api_call (ep : Endpoint) (resp : Nat → HttpResult) : R Json :=
  makeApiCallGo ep resp 4 1 []

/-- Number of ERP HTTP attempts recorded in a log. -/
def isErp : Act → Bool
  | .erpCall _ => true
  | _ => false

/-- Recognises a call to the nota.fiscal.obter.link endpoint. -/
def isLink : Act → Bool
  | .erpCall .obterLink => true
  | _ => false

/-- Recognises a BigQuery query execution. -/
def isBq : Act → Bool
  | .bqQuery => true
  | _ => false

/-- Recognises a SendGrid send attempt. -/
def isSend : Act → Bool
  | .sendAttempt => true
  | _ => false

/-- The sleep durations recorded in a log, in order. -/
def delaysOf (log : List Act) : List ℚ :=
  log.filterMap fun a =>
    match a with
    | .sleep t => some t
    | _ => none

/-- The three waits actually produced by the make_api_call retry schedule:
2.5 * 2 ^ 0 = 2.5 is below the minimum of 30, so the first wait is 30. -/
theorem tinyWait_one : tinyWait 1 = 30 := by
  norm_num [tinyWait, waitExponential, qmax, qmin, pow2]

/-- Second make_api_call wait: 2.5 * 2 = 5 is still below the minimum. -/
theorem tinyWait_two : tinyWait 2 = 30 := by
  norm_num [tinyWait, waitExponential, qmax, qmin, pow2]

/-- Third make_api_call wait: 2.5 * 4 = 10 is still below the minimum. -/
theorem tinyWait_three : tinyWait 3 = 30 := by
  norm_num [tinyWait, waitExponential, qmax, qmin, pow2]


/-- The field test and extraction of generate_nfce (lines 187-192): the
Python condition "retorno" in response and "registros" in
response["retorno"] and "registro" in response["retorno"]["registros"]
evaluated left to right, then the subscript chain
response["retorno"]["registros"]["registro"]["idNotaFiscal"].  A failing
membership test raises ValidationError; note that the final idNotaFiscal
subscript is not guarded by the condition, so its absence raises KeyError
instead. -/
def extract_nfce_id (response : Json) : Except Err Json :=
  match Json.mem "retorno" response with
  | .error e => .error (.pyError e)
  | .ok false => .error .validationError
  | .ok true =>
    match response.item "retorno" with
    | .error e => .error (.pyError e)
    | .ok retorno =>
      match Json.mem "registros" retorno with
      | .error e => .error (.pyError e)
      | .ok false => .error .validationError
      | .ok true =>
        match retorno.item "registros" with
        | .error e => .error (.pyError e)
        | .ok registros =>
          match Json.mem "registro" registros with
          | .error e => .error (.pyError e)
          | .ok false => .error .validationError
          | .ok true =>
            match registros.item "registro" with
            | .error e => .error (.pyError e)
            | .ok registro => registro.item "idNotaFiscal" |>.mapError .pyError

/-- generate_nfce (lines 179-192): one make_api_call against the
gerar.nota.fiscal.pedido endpoint followed by the idNotaFiscal
extraction. -/
def generate_nfce (resp : Nat → HttpResult) : R Json :=
  let c := make_api_call .gerarNota resp
  match c.res with
  | .error e => ⟨.error e, c.log⟩
  | .ok response => ⟨extract_nfce_id response, c.log⟩

/-- The field test and extraction of get_nota_fiscal_link (lines 203-209):
"retorno" in response and "link_nfe" in response["retorno"], then
response["retorno"]["link_nfe"]; a failing test raises ValidationError. -/
def extract_link (response : Json) : Except Err Json :=
  match Json.mem "retorno" response with
  | .error e => .error (.pyError e)
  | .ok false => .error .validationError
  | .ok true =>
    match response.item "retorno" with
    | .error e => .error (.pyError e)
    | .ok retorno =>
      match Json.mem "link_nfe" retorno with
      | .error e => .error (.pyError e)
      | .ok false => .error .validationError
      | .ok true => retorno.item "link_nfe" |>.mapError .pyError

/-- get_nota_fiscal_link (lines 195-209): one make_api_call against the
nota.fiscal.obter.link endpoint followed by the link_nfe extraction. -/
def get_nota_fiscal_link (resp : Nat → HttpResult) : R Json :=
  let c := make_api_call .obterLink resp
  match c.res with
  | .error e => ⟨.error e, c.log⟩
  | .ok response => ⟨extract_link response, c.log⟩

/-- response.get("retorno", \x7b\x7d).get("contatos", []) of
get_client_email_from_tinyerp (line 220). -/
def contatosOf (response : Json) : Except PyErr Json :=
  match response.get "retorno" (Json.obj []) with
  | .error e => .error e
  | .ok r => r.get "contatos" (Json.arr [])

/-- get_client_email_from_tinyerp (lines 212-232): one make_api_call against
the contatos.pesquisa endpoint; if the contatos list is truthy, read
contatos[0].get("contato", \x7b\x7d).get("email") and return it when truthy;
in every other case return None. -/
def get_client_email_from_tinyerp (resp : Nat → HttpResult) : R Json :=
  let c := make_api_call .contatosPesquisa resp
  match c.res with
  | .error e => ⟨.error e, c.log⟩
  | .ok response =>
    match contatosOf response with
    | .error e => ⟨.error (.pyError e), c.log⟩
    | .ok contatos =>
      if contatos.truthy then
        match contatos.item0 with
        | .error e => ⟨.error (.pyError e), c.log⟩
        | .ok c0 =>
          match c0.get "contato" (Json.obj []) with
          | .error e => ⟨.error (.pyError e), c.log⟩
          | .ok contato =>
            match contato.get "email" Json.null with
            | .error e => ⟨.error (.pyError e), c.log⟩
            | .ok email =>
              if email.truthy then ⟨.ok email, c.log⟩
              else ⟨.ok Json.null, c.log⟩
      else ⟨.ok Json.null, c.log⟩

/-- Outcome of one BigQuery query execution: a BadRequest, any other
exception, or the list of result rows. -/
inductive QRes (ρ : Type) where
  | badRequest
  | failure
  | rows (rs : List ρ)

/-- Whether the query execution raised (either exception class). -/
def QRes.failed {ρ : Type} : QRes ρ → Bool
  | .rows _ => false
  | _ => true

/-- get_client_email (lines 235-268): run the warehouse contatos query; the
first row with a truthy email column is returned; if the query raises
(BadRequest or any other error) the exception is logged and re-raised; if no
row has a truthy email, fall back to get_client_email_from_tinyerp, whose
result or exception propagates unchanged. -/
def get_client_email (q : QRes Json) (resp : Nat → HttpResult) : R Json :=
  match q with
  | .badRequest => ⟨.error .badRequest, [.bqQuery]⟩
  | .failure => ⟨.error .queryFailure, [.bqQuery]⟩
  | .rows rs =>
    match rs.find? Json.truthy with
    | some e => ⟨.ok e, [.bqQuery]⟩
    | none =>
      let t := get_client_email_from_tinyerp resp
      ⟨t.res, .bqQuery :: t.log⟩

/-- One row of the purchase-details query (lines 277-302): the per-item
projections together with the header-level fields repeated on every row and
the window-aggregated sub_total. -/
structure PRow where
  item_name : Json
  item_quantity : Json
  item_price : Json
  total_item_price : Json
  total_discount : Json
  total_paid : Json
  payment_method : Json
  sub_total : Json

/-- One element of the items list built by get_purchase_details
(lines 317-322). -/
structure ItemDetail where
  item_name : Json
  item_quantity : Json
  item_price : Json
  total_item_price : Json

/-- The dict returned by get_purchase_details: the four summary keys are
updated once per row, so they hold the values of the last row; the items key
holds the per-row item details in order.  The function only returns when at
least one row exists, so all keys are present. -/
structure PurchaseSummary where
  total_discount : Json
  total_paid : Json
  payment_method : Json
  sub_total : Json
  items : List ItemDetail

/-- The item dict appended for one row (lines 317-323). -/
def mkItem (r : PRow) : ItemDetail :=
  ⟨r.item_name, r.item_quantity, r.item_price, r.total_item_price⟩

/-- One attempt of get_purchase_details (lines 274-347): BadRequest and any
other query failure are logged and re-raised; an empty result set raises the
generic Exception "Purchase details not found after retries."; otherwise the
summary dict is built from the rows. -/
def get_purchase_details_once (q : QRes PRow) : Except Err PurchaseSummary :=
  match q with
  | .badRequest => .error .badRequest
  | .failure => .error .queryFailure
  | .rows [] => .error .purchaseNotFound
  | .rows (r0 :: rest) =>
    let lastRow := (rest.getLast?).getD r0
    .ok { total_discount := lastRow.total_discount
          total_paid := lastRow.total_paid
          payment_method := lastRow.payment_method
          sub_total := lastRow.sub_total
          items := (r0 :: rest).map mkItem }

/-- The wait schedule of the get_purchase_details decorator:
wait_exponential(multiplier=30, min=30, max=90). -/
def bqWait (attemptNumber : Nat) : ℚ :=
  waitExponential 30 30 90 attemptNumber

/-- The tenacity loop of get_purchase_details: the decorator at line 271
passes no retry predicate, so every exception is retried, with
stop_after_attempt(4) and the bqWait schedule. -/
def getPurchaseGo (q : Nat → QRes PRow) : Nat → Nat → List Act → R PurchaseSummary
  | 0, _, log => ⟨.error (.retryError .purchaseNotFound), log⟩
  | fuel + 1, n, log =>
    let log := log ++ [.bqQuery]
    match get_purchase_details_once (q n) with
    | .ok s => ⟨.ok s, log⟩
    | .error e =>
      if 4 ≤ n then ⟨.error (.retryError e), log⟩
      else getPurchaseGo q fuel (n + 1) (log ++ [.sleep (bqWait n)])

/-- get_purchase_details under its retry decorator; q gives the query
outcome of each 1-based attempt. -/
def get_purchase_details (q : Nat → QRes PRow) : R PurchaseSummary :=
  getPurchaseGo q 4 1 []

/-- get_daily_checkins (lines 350-383): the first row of the count query, 0
when the query raises (either exception class) or returns no row.  The
Python function wraps the value in the one-key dict
daily_checkins; since the key is always present, the dict is modelled by the
value it carries. -/
def get_daily_checkins (q : QRes Json) : Json × List Act :=
  match q with
  | .rows rs => ((rs.head?).getD (Json.num 0), [.bqQuery])
  | _ => (Json.num 0, [.bqQuery])

/-- get_quarter_spend (lines 386-432): next((row.quarter_spend for row in
results), 0), 0 when the query raises.  The one-key dict quarter_spend is
modelled by the value it carries. -/
def get_quarter_spend (q : QRes Json) : Json × List Act :=
  match q with
  | .rows rs => ((rs.head?).getD (Json.num 0), [.bqQuery])
  | _ => (Json.num 0, [.bqQuery])

/-- get_lifetime_spend (lines 435-499): the first non-None total_spend value
of the returned rows, 0 when there is none, the rows are empty, or the query
raises.  The one-key dict total_spend is modelled by the value it
carries. -/
def get_lifetime_spend (q : QRes Json) : Json × List Act :=
  match q with
  | .rows rs => ((rs.find? fun v => !v.isNull).getD (Json.num 0), [.bqQuery])
  | _ => (Json.num 0, [.bqQuery])

/-- The email_data dict built by aggregate_email_data (lines 509-524).  The
.get defaults of lines 513-520 can never fire: get_purchase_details only
returns with all four summary keys set and a nonempty items list, and the
three loyalty dicts always carry their single key; so each field holds the
corresponding computed value.  nota_fiscal_url = none models the key being
absent (line 523). -/
structure EmailPayload where
  client_email : Json
  client_name : Json
  dados_id : Json
  items : List ItemDetail
  sub_total : Json
  total_discount : Json
  total_paid : Json
  payment_method : Json
  daily_checkins : Json
  quarter_spend : Json
  lifetime_spend : Json
  nota_fiscal_url : Option Json

/-- aggregate_email_data (lines 502-529): get_purchase_details first (its
exception propagates and skips the loyalty queries), then the three loyalty
queries, then the dict is assembled; the nota_fiscal_url key is added only
when the argument is not None.  The cpf and dados_id query parameters are
absorbed into the query oracles. -/
def aggregate_email_data (purchaseQ : Nat → QRes PRow)
    (checkinsQ quarterQ lifetimeQ : QRes Json)
    (dados_id client_email : Json) (nota_fiscal_url : Option Json)
    (client_name : Json) : R EmailPayload :=
  let p := get_purchase_details purchaseQ
  match p.res with
  | .error e => ⟨.error e, p.log⟩
  | .ok items =>
    let dc := get_daily_checkins checkinsQ
    let qs := get_quarter_spend quarterQ
    let ls := get_lifetime_spend lifetimeQ
    ⟨.ok { client_email := client_email
           client_name := client_name
           dados_id := dados_id
           items := items.items
           sub_total := items.sub_total
           total_discount := items.total_discount
           total_paid := items.total_paid
           payment_method := items.payment_method
           daily_checkins := dc.1
           quarter_spend := qs.1
           lifetime_spend := ls.1
           nota_fiscal_url := nota_fiscal_url },
      p.log ++ dc.2 ++ qs.2 ++ ls.2⟩

/-- Outcome of one sg_client.send call: an HTTP-like status code, or a
transport exception. -/
inductive SendResult where
  | status (code : Int)
  | exn

/-- The TEST_MODE constant of line 22. -/
def TEST_MODE : Bool := true

/-- The TEST_EMAIL constant of line 23. -/
def TEST_EMAIL : String := "rodrigo@brunale.com"

/-- Whether one send attempt succeeds: a status code in range(200, 300);
an exception or any other code counts as a failed attempt (lines 548-554). -/
def sendAttemptOk : SendResult → Bool
  | .status code => decide (200 ≤ code ∧ code < 300)
  | .exn => false

/-- How send_email ends: a successful send, the early return when no
recipient address exists, or retries exhausted (which only logs). -/
inductive SendOutcome where
  | sent
  | skippedNoRecipient
  | exhausted
deriving DecidableEq

/-- The recursive retry of send_email (lines 532-563): recipient is
TEST_EMAIL when TEST_MODE else email_data.get("client_email"); a falsy
recipient returns immediately; a failed attempt with retry_count < 2 sleeps
2 ^ (retry_count + 1) * 30 seconds and recurses with retry_count + 1; after
that the error is only logged, never raised.  sr gives the outcome of the
attempt with each retry_count; fuel bounds the recursion (3 suffices). -/
def send_email_go (sr : Nat → SendResult) (p : EmailPayload) :
    Nat → Nat → List Act → SendOutcome × List Act
  | _, 0, log => (.exhausted, log)
  | retry_count, fuel + 1, log =>
    let recipient := if TEST_MODE then Json.str TEST_EMAIL else p.client_email
    if !recipient.truthy then (.skippedNoRecipient, log)
    else
      let log := log ++ [.sendAttempt]
      if sendAttemptOk (sr retry_count) then (.sent, log)
      else if retry_count < 2 then
        send_email_go sr p (retry_count + 1) fuel (log ++ [.sleep (pow2 (retry_count + 1) * 30)])
      else (.exhausted, log)

/-- send_email as called by the pipeline, with retry_count = 0. -/
def send_email (sr : Nat → SendResult) (p : EmailPayload) : SendOutcome × List Act :=
  send_email_go sr p 0 3 []

/-- The external world of one invocation: per-attempt HTTP outcomes for the
three ERP endpoints, the five BigQuery query outcomes, and per-attempt
SendGrid outcomes. -/
structure PipeEnv where
  nfce : Nat → HttpResult
  link : Nat → HttpResult
  contatos : Nat → HttpResult
  emailQ : QRes Json
  purchaseQ : Nat → QRes PRow
  checkinsQ : QRes Json
  quarterQ : QRes Json
  lifetimeQ : QRes Json
  send : Nat → SendResult

/-- How process_webhook_payload ends: one of its early returns, a completed
run carrying the built EmailPayload and the send outcome, or an exception
caught by the handlers at lines 131-134 (which log and return). -/
inductive PipeResult where
  | returnedNoDados
  | returnedNoId
  | returnedNoCpf
  | returnedNoEmail
  | completed (payload : EmailPayload) (outcome : SendOutcome)
  | caught (e : Err)

/-- The guarded link lookup of lines 119-125: when nfce_id is present and
truthy, call get_nota_fiscal_link; its success becomes the url, any
exception is logged and leaves the url None; otherwise no call is made. -/
def link_step (resp : Nat → HttpResult) (nfce_id : Option Json) :
    Option Json × List Act :=
  match nfce_id with
  | some v =>
    if v.truthy then
      let l := get_nota_fiscal_link resp
      match l.res with
      | .ok u => (some u, l.log)
      | .error _ => (none, l.log)
    else (none, [])
  | none => (none, [])

/-- process_webhook_payload (lines 87-134), in source order: the dados
membership test, the dados.id extraction and truthiness check, the guarded
generate_nfce call (any exception makes nfce_id None), the cliente fields,
the is None check on cpfCnpj, get_client_email and its truthiness check, the
link lookup guarded by a truthy nfce_id (any exception leaves the url None),
aggregate_email_data, and send_email.  Every exception escaping these steps
is caught by the outer handlers, modelled by the caught result. -/
def process_webhook_payload (env : PipeEnv) (payload : Json) :
    PipeResult × List Act :=
  match Json.mem "dados" payload with
  | .error e => (.caught (.pyError e), [])
  | .ok false => (.returnedNoDados, [])
  | .ok true =>
    match payload.item "dados" with
    | .error e => (.caught (.pyError e), [])
    | .ok dados =>
      match dados.get "id" Json.null with
      | .error e => (.caught (.pyError e), [])
      | .ok dados_id =>
        if !dados_id.truthy then (.returnedNoId, [])
        else
          let g := generate_nfce env.nfce
          let nfce_id : Option Json :=
            match g.res with
            | .ok v => some v
            | .error _ => none
          match dados.get "cliente" (Json.obj []) with
          | .error e => (.caught (.pyError e), g.log)
          | .ok cliente_info =>
            match cliente_info.get "nome" (Json.str "Unknown Client") with
            | .error e => (.caught (.pyError e), g.log)
            | .ok cliente_nome =>
              match cliente_info.get "cpfCnpj" Json.null with
              | .error e => (.caught (.pyError e), g.log)
              | .ok cpf =>
                if cpf.isNull then (.returnedNoCpf, g.log)
                else
                  let ce := get_client_email env.emailQ env.contatos
                  match ce.res with
                  | .error e => (.caught e, g.log ++ ce.log)
                  | .ok client_email =>
                    if !client_email.truthy then (.returnedNoEmail, g.log ++ ce.log)
                    else
                      let lk := link_step env.link nfce_id
                      let ag := aggregate_email_data env.purchaseQ env.checkinsQ
                        env.quarterQ env.lifetimeQ dados_id client_email lk.1 cliente_nome
                      match ag.res with
                      | .error e => (.caught e, g.log ++ ce.log ++ lk.2 ++ ag.log)
                      | .ok email_data =>
                        let s := send_email env.send email_data
                        (.completed email_data s.1, g.log ++ ce.log ++ lk.2 ++ ag.log ++ s.2)

/-- Whether a Python-level extraction succeeded. -/
def exOk {α : Type} (x : Except PyErr α) : Bool :=
  match x with
  | .ok _ => true
  | _ => false

/-- The error-message extraction performed by validate_json_payload on a
status-1 body succeeds on this body: the embedded erros value is absent,
falsy, or its first element is a mapping with an erro entry. -/
def errosWf (j : Json) : Bool :=
  match errosOf j with
  | .ok er => exOk (erro_message er)
  | .error _ => false

/-- Json.eqStr on an explicit string value reduces to string equality. -/
theorem eqStr_str (t s : String) : Json.eqStr (.str t) s = (t == s) := rfl

/-- eqStr on the None value is always false. -/
theorem eqStr_null (s : String) : Json.eqStr .null s = false := rfl

/-- On a body with status "1", error code "1" and a well-formed erros field,
validate_json_payload raises InvalidTokenError. -/
theorem validate_status1_code1 (j : Json) (h1 : statusOf j = .ok (.str "1"))
    (h2 : codigoOf j = .ok (.str "1")) (h3 : errosWf j = true) :
    validate_json_payload j = .error .invalidTokenError := by
  unfold errosWf at h3
  cases her : errosOf j with
  | error e => rw [her] at h3; simp at h3
  | ok er =>
    rw [her] at h3
    simp only [exOk] at h3
    cases hm : erro_message er with
    | error e => rw [hm] at h3; simp at h3
    | ok m => simp [validate_json_payload, h1, h2, her, hm, eqStr_str]

/-- On a body with status "1", an error code other than "1" and a
well-formed erros field, validate_json_payload raises RetryableError. -/
theorem validate_status1_other (j c : Json) (h1 : statusOf j = .ok (.str "1"))
    (h2 : codigoOf j = .ok c) (hc : c.eqStr "1" = false) (h3 : errosWf j = true) :
    validate_json_payload j = .error .retryableError := by
  unfold errosWf at h3
  cases her : errosOf j with
  | error e => rw [her] at h3; simp at h3
  | ok er =>
    rw [her] at h3
    simp only [exOk] at h3
    cases hm : erro_message er with
    | error e => rw [hm] at h3; simp at h3
    | ok m => simp [validate_json_payload, h1, h2, her, hm, hc, eqStr_str]

/-- On a body with status "2", validate_json_payload raises
ValidationError. -/
theorem validate_status2 (j : Json) (h1 : statusOf j = .ok (.str "2")) :
    validate_json_payload j = .error .validationError := by
  simp [validate_json_payload, h1, eqStr_str]

/-- On a body with status "3", validate_json_payload returns normally. -/
theorem validate_status3 (j : Json) (h1 : statusOf j = .ok (.str "3")) :
    validate_json_payload j = .ok () := by
  simp [validate_json_payload, h1, eqStr_str]

/-- On a body whose extracted status is none of "1", "2", "3",
validate_json_payload returns normally. -/
theorem validate_other (j v : Json) (h : statusOf j = .ok v)
    (h1 : v.eqStr "1" = false) (h2 : v.eqStr "2" = false)
    (h3 : v.eqStr "3" = false) :
    validate_json_payload j = .ok () := by
  simp [validate_json_payload, h, h1, h2, h3]

/-- A first attempt that returns a body passing validation makes
make_api_call return after exactly one attempt with the body as-is. -/
theorem make_api_call_ok (ep : Endpoint) (resp : Nat → HttpResult) (j : Json)
    (h : attemptOnce (resp 1) = .ok j) :
    make_api_call ep resp = ⟨.ok j, [.erpCall ep]⟩ := by
  simp [make_api_call, makeApiCallGo, h]

/-- A first attempt raising a non-retryable exception makes make_api_call
propagate it after exactly one attempt, with no sleep. -/
theorem make_api_call_fatal (ep : Endpoint) (resp : Nat → HttpResult) (e : Err)
    (h : attemptOnce (resp 1) = .error e) (hnr : isRetryableTiny e = false) :
    make_api_call ep resp = ⟨.error e, [.erpCall ep]⟩ := by
  simp [make_api_call, makeApiCallGo, h, hnr]

/-- When every attempt raises RetryableError, make_api_call performs exactly
4 attempts separated by sleeps of 30, 30 and 30 seconds and then raises the
tenacity RetryError wrapping the last exception. -/
theorem make_api_call_exhaust (ep : Endpoint) (resp : Nat → HttpResult)
    (h : ∀ n, attemptOnce (resp n) = .error .retryableError) :
    make_api_call ep resp =
      ⟨.error (.retryError .retryableError),
        [.erpCall ep, .sleep 30, .erpCall ep, .sleep 30,
         .erpCall ep, .sleep 30, .erpCall ep]⟩ := by
  simp [make_api_call, makeApiCallGo, h 1, h 2, h 3, h 4, isRetryableTiny,
    tinyWait_one, tinyWait_two, tinyWait_three]

/-- Whether a make_api_call run raised InvalidTokenError. -/
def raisedInvalidToken (r : R Json) : Bool :=
  match r.res with
  | .error .invalidTokenError => true
  | _ => false

/-- Whether a make_api_call run returned a body successfully. -/
def callOk (r : R Json) : Bool :=
  match r.res with
  | .ok _ => true
  | _ => false

/-- Claim C1, amended: on a response body with embedded status "1" and error
code "1", make_api_call raises InvalidTokenError after exactly one attempt
provided the embedded erros field is absent, falsy, or shaped as a list
whose first element is a mapping with an erro key (errosWf); a body with
status "2" raises ValidationError after one attempt; a body with status "3"
is a success returned as-is after one attempt.  In every case the attempt
count stays at 1 and no sleep occurs. -/
theorem c1_theorem (j : Json) (resp : Nat → HttpResult)
    (hresp : resp 1 = .body j) :
    (statusOf j = .ok (.str "1") → codigoOf j = .ok (.str "1") →
      errosWf j = true →
      make_api_call .gerarNota resp =
        ⟨.error .invalidTokenError, [.erpCall .gerarNota]⟩)
  ∧ (statusOf j = .ok (.str "2") →
      make_api_call .gerarNota resp =
        ⟨.error .validationError, [.erpCall .gerarNota]⟩)
  ∧ (statusOf j = .ok (.str "3") →
      make_api_call .gerarNota resp = ⟨.ok j, [.erpCall .gerarNota]⟩) := by
  refine ⟨fun h1 h2 h3 => ?_, fun h1 => ?_, fun h1 => ?_⟩
  · exact make_api_call_fatal _ _ _
      (by rw [hresp]; simp [attemptOnce, validate_status1_code1 j h1 h2 h3]) rfl
  · exact make_api_call_fatal _ _ _
      (by rw [hresp]; simp [attemptOnce, validate_status2 j h1]) rfl
  · exact make_api_call_ok _ _ _
      (by rw [hresp]; simp [attemptOnce, validate_status3 j h1])

/-- A status-1 code-1 body with a well-formed (absent) erros field. -/
def c1good : Json :=
  .obj [("retorno", .obj [("status_processamento", .str "1"),
                          ("codigo_erro", .str "1")])]

/-- Witness for c1_theorem at the concrete body c1good. -/
theorem c1_witness :
    make_api_call .gerarNota (fun _ => .body c1good) =
      ⟨.error .invalidTokenError, [.erpCall .gerarNota]⟩ :=
  (c1_theorem c1good (fun _ => .body c1good) rfl).1 rfl rfl rfl

/-- A status-1 code-1 body whose erros field is a nonempty list of numbers:
erros[0]["erro"] then raises TypeError before the code check. -/
def c1bad : Json :=
  .obj [("retorno", .obj [("status_processamento", .str "1"),
                          ("codigo_erro", .str "1"),
                          ("erros", .arr [.num 5])])]

/-- Counterexample to claim C1 as stated: the body c1bad has embedded status
"1" and error code "1", yet make_api_call raises the TypeError coming from
the message extraction erros[0]["erro"], not InvalidTokenError.  (The
attempt count does stay at 1.) -/
theorem c1_counterexample :
    statusOf c1bad = .ok (.str "1")
  ∧ codigoOf c1bad = .ok (.str "1")
  ∧ make_api_call .gerarNota (fun _ => .body c1bad) =
      ⟨.error (.pyError .typeError), [.erpCall .gerarNota]⟩
  ∧ raisedInvalidToken (make_api_call .gerarNota (fun _ => .body c1bad)) =
      false :=
  ⟨rfl, rfl, rfl, rfl⟩

/-- Claim C2, amended: when every attempt of make_api_call yields a body
with embedded status "1", an error code other than "1" and a well-formed
erros field, the call makes exactly 4 attempts with sleeps of 30, 30 and 30
seconds between them (the tenacity waits 2.5 * 2 ^ (n - 1) all fall below
the configured minimum of 30 within 4 attempts), and then propagates the
retry-exhaustion error wrapping the RetryableError. -/
theorem c2_theorem (resp : Nat → HttpResult)
    (h : ∀ n, ∃ j, resp n = .body j ∧ statusOf j = .ok (.str "1") ∧
          (∃ c, codigoOf j = .ok c ∧ c.eqStr "1" = false) ∧ errosWf j = true) :
    make_api_call .gerarNota resp =
      ⟨.error (.retryError .retryableError),
        [.erpCall .gerarNota, .sleep 30, .erpCall .gerarNota, .sleep 30,
         .erpCall .gerarNota, .sleep 30, .erpCall .gerarNota]⟩
  ∧ delaysOf (make_api_call .gerarNota resp).log = [30, 30, 30] := by
  have ha : ∀ n, attemptOnce (resp n) = .error .retryableError := by
    intro n
    obtain ⟨j, hb, h1, ⟨c, h2, hc⟩, h3⟩ := h n
    rw [hb]
    simp [attemptOnce, validate_status1_other j c h1 h2 hc h3]
  refine ⟨make_api_call_exhaust _ _ ha, ?_⟩
  rw [make_api_call_exhaust _ _ ha]
  rfl

/-- A body with embedded status "1" and error code "2" (and no erros
field). -/
def c2body : Json :=
  .obj [("retorno", .obj [("status_processamento", .str "1"),
                          ("codigo_erro", .str "2")])]

/-- Witness for c2_theorem at the concrete body c2body. -/
theorem c2_witness :
    make_api_call .gerarNota (fun _ => .body c2body) =
      ⟨.error (.retryError .retryableError),
        [.erpCall .gerarNota, .sleep 30, .erpCall .gerarNota, .sleep 30,
         .erpCall .gerarNota, .sleep 30, .erpCall .gerarNota]⟩ :=
  (c2_theorem (fun _ => HttpResult.body c2body)
    (fun (_ : Nat) => ⟨c2body, rfl, rfl, ⟨Json.str "2", rfl, rfl⟩, rfl⟩)).1

/-- Counterexample to claim C2 as stated: for a URL answering with status
"1" and error code "2" on every attempt, the delays between the 4 attempts
are 30, 30, 30 seconds, not the claimed 30, 75, 187.5, 187.5 (there are only
three sleeps between four attempts, and each computed wait falls below the
configured minimum of 30). -/
theorem c2_counterexample :
    delaysOf (make_api_call .gerarNota (fun _ => .body c2body)).log =
      [30, 30, 30]
  ∧ ([30, 30, 30] : List ℚ) ≠ [30, 75, 187.5, 187.5] := by
  constructor
  · have ha : ∀ n, attemptOnce ((fun _ => HttpResult.body c2body) n) =
        .error .retryableError := fun (_ : Nat) => rfl
    rw [make_api_call_exhaust .gerarNota _ ha]
    rfl
  · intro hcontra
    have hlen : ([30, 30, 30] : List ℚ).length =
        ([30, 75, 187.5, 187.5] : List ℚ).length := by rw [hcontra]
    simp at hlen

/-- A success body (status "3") carrying no retorno object structure beyond
the status. -/
def c10okBody : Json := .obj []

/-- Claim C10, amended: when the status extraction itself succeeds (the body
is a dict and its retorno entry, when present, is a dict) and yields
anything other than the strings "1", "2", "3" - including a missing retorno
envelope, a missing status field (both give None) or a numeric status -
validate_json_payload raises nothing and make_api_call returns the body
as-is after one attempt. -/
theorem c10_theorem (j v : Json) (resp : Nat → HttpResult)
    (hresp : resp 1 = .body j) (h : statusOf j = .ok v)
    (h1 : v.eqStr "1" = false) (h2 : v.eqStr "2" = false)
    (h3 : v.eqStr "3" = false) :
    make_api_call .gerarNota resp = ⟨.ok j, [.erpCall .gerarNota]⟩ :=
  make_api_call_ok _ _ _
    (by rw [hresp]; simp [attemptOnce, validate_other j v h h1 h2 h3])

/-- Witness for c10_theorem at the concrete body with no retorno envelope at
all: the extracted status is None. -/
theorem c10_witness :
    make_api_call .gerarNota (fun _ => .body c10okBody) =
      ⟨.ok c10okBody, [.erpCall .gerarNota]⟩ :=
  c10_theorem c10okBody Json.null (fun _ => .body c10okBody)
    rfl rfl rfl rfl rfl

/-- A body whose retorno entry is a string: status_processamento is missing
from it, but .get on a non-dict raises AttributeError. -/
def c10bad : Json := .obj [("retorno", .str "x")]

/-- Counterexample to claim C10 as stated: the body c10bad has no
status_processamento field (so its status is not "1", "2" or "3"), yet
validate_json_payload does not pass it through: the chained .get of line 164
raises AttributeError on the non-dict retorno value, and make_api_call
propagates that exception instead of returning the body as a success. -/
theorem c10_counterexample :
    make_api_call .gerarNota (fun _ => .body c10bad) =
      ⟨.error (.pyError .attributeError), [.erpCall .gerarNota]⟩
  ∧ callOk (make_api_call .gerarNota (fun _ => .body c10bad)) = false :=
  ⟨rfl, rfl⟩

/-- When the underlying make_api_call succeeds with body j, generate_nfce is
the idNotaFiscal extraction applied to j. -/
theorem generate_nfce_of_ok (resp : Nat → HttpResult) (j : Json)
    (hok : (make_api_call .gerarNota resp).res = .ok j) :
    generate_nfce resp = ⟨extract_nfce_id j, (make_api_call .gerarNota resp).log⟩ := by
  simp only [generate_nfce, hok]

/-- Whether a component run raised ValidationError. -/
def raisedValidationErr (r : R Json) : Bool :=
  match r.res with
  | .error .validationError => true
  | _ => false

/-- Claim C6, amended: on a successful generate-document API response,
generate_nfce returns the value of the retorno.registros.registro
.idNotaFiscal chain when it exists; when any one of the retorno, registros
or registro keys is absent it raises ValidationError (one conjunct per
missing key); but when the retorno.registros.registro path exists and only
idNotaFiscal is absent, it raises KeyError, not ValidationError. -/
theorem c6_theorem (resp : Nat → HttpResult) (j : Json)
    (hok : (make_api_call .gerarNota resp).res = .ok j) :
    (∀ r rs reg v, Json.mem "retorno" j = .ok true → j.item "retorno" = .ok r →
       Json.mem "registros" r = .ok true → r.item "registros" = .ok rs →
       Json.mem "registro" rs = .ok true → rs.item "registro" = .ok reg →
       reg.item "idNotaFiscal" = .ok v →
       (generate_nfce resp).res = .ok v)
  ∧ (Json.mem "retorno" j = .ok false →
       (generate_nfce resp).res = .error .validationError)
  ∧ (∀ r, Json.mem "retorno" j = .ok true → j.item "retorno" = .ok r →
       Json.mem "registros" r = .ok false →
       (generate_nfce resp).res = .error .validationError)
  ∧ (∀ r rs, Json.mem "retorno" j = .ok true → j.item "retorno" = .ok r →
       Json.mem "registros" r = .ok true → r.item "registros" = .ok rs →
       Json.mem "registro" rs = .ok false →
       (generate_nfce resp).res = .error .validationError)
  ∧ (∀ r rs reg, Json.mem "retorno" j = .ok true → j.item "retorno" = .ok r →
       Json.mem "registros" r = .ok true → r.item "registros" = .ok rs →
       Json.mem "registro" rs = .ok true → rs.item "registro" = .ok reg →
       reg.item "idNotaFiscal" = .error .keyError →
       (generate_nfce resp).res = .error (.pyError .keyError)) := by
  have hg := generate_nfce_of_ok resp j hok
  refine ⟨?_, ?_, ?_, ?_, ?_⟩ <;> intros <;> rw [hg] <;>
    simp [extract_nfce_id, Except.mapError, *]

/-- A successful generate-document response carrying an idNotaFiscal. -/
def c6good : Json :=
  .obj [("retorno", .obj [("status_processamento", .str "3"),
          ("registros", .obj [("registro",
            .obj [("idNotaFiscal", .str "55")])])])]

/-- A successful response body with no retorno key at all. -/
def c6noRetorno : Json := .obj []

/-- A successful response whose retorno object has no registros key. -/
def c6noRegistros : Json :=
  .obj [("retorno", .obj [("status_processamento", .str "3")])]

/-- A successful response whose registros object has no registro key. -/
def c6noRegistro : Json :=
  .obj [("retorno", .obj [("status_processamento", .str "3"),
          ("registros", .obj [])])]

/-- Witness for c6_theorem: on c6good generate_nfce returns the embedded
identifier "55"; on each of the three bodies missing the retorno, registros
or registro key it raises ValidationError. -/
theorem c6_witness :
    (generate_nfce (fun _ => .body c6good)).res = .ok (.str "55")
  ∧ (generate_nfce (fun _ => .body c6noRetorno)).res = .error .validationError
  ∧ (generate_nfce (fun _ => .body c6noRegistros)).res = .error .validationError
  ∧ (generate_nfce (fun _ => .body c6noRegistro)).res = .error .validationError :=
  ⟨(c6_theorem (fun _ => HttpResult.body c6good) c6good rfl).1
    (.obj [("status_processamento", .str "3"),
      ("registros", .obj [("registro", .obj [("idNotaFiscal", .str "55")])])])
    (.obj [("registro", .obj [("idNotaFiscal", .str "55")])])
    (.obj [("idNotaFiscal", .str "55")])
    (.str "55") rfl rfl rfl rfl rfl rfl rfl,
   (c6_theorem (fun _ => HttpResult.body c6noRetorno) c6noRetorno rfl).2.1 rfl,
   (c6_theorem (fun _ => HttpResult.body c6noRegistros) c6noRegistros rfl).2.2.1
    (.obj [("status_processamento", .str "3")]) rfl rfl rfl,
   (c6_theorem (fun _ => HttpResult.body c6noRegistro) c6noRegistro rfl).2.2.2.1
    (.obj [("status_processamento", .str "3"), ("registros", .obj [])])
    (.obj []) rfl rfl rfl rfl rfl⟩

/-- A successful response whose registro object exists but has no
idNotaFiscal key. -/
def c6bad : Json :=
  .obj [("retorno", .obj [("status_processamento", .str "3"),
          ("registros", .obj [("registro", .obj [])])])]

/-- Counterexample to claim C6 as stated: the response c6bad is a successful
API response (status "3") in which the idNotaFiscal field is absent, yet
generate_nfce raises KeyError (from the unguarded subscript at line 188),
not ValidationError. -/
theorem c6_counterexample :
    (make_api_call .gerarNota (fun _ => .body c6bad)).res = .ok c6bad
  ∧ (generate_nfce (fun _ => .body c6bad)).res = .error (.pyError .keyError)
  ∧ raisedValidationErr (generate_nfce (fun _ => .body c6bad)) = false :=
  ⟨rfl, rfl, rfl⟩

/-- Rendering of the first sleep of send_email: 2 ^ (0 + 1) * 30 = 60. -/
theorem sendWait_one : pow2 (0 + 1) * 30 = (60 : ℚ) := by
  norm_num [pow2]

/-- Rendering of the second sleep of send_email: 2 ^ (1 + 1) * 30 = 120. -/
theorem sendWait_two : pow2 (1 + 1) * 30 = (120 : ℚ) := by
  norm_num [pow2]

/-- With TEST_MODE set, the recipient is always the truthy TEST_EMAIL, so
the no-recipient early return of send_email is unreachable. -/
theorem send_recipient_truthy (p : EmailPayload) :
    (if TEST_MODE then Json.str TEST_EMAIL else p.client_email).truthy = true := rfl

/-- The send_email retry loop performs at most fuel attempts beyond those
already in the log. -/
theorem send_email_go_countP (sr : Nat → SendResult) (p : EmailPayload) :
    ∀ (fuel rc : Nat) (log : List Act),
      ((send_email_go sr p rc fuel log).2).countP isSend ≤
        log.countP isSend + fuel := by
  intro fuel
  induction fuel with
  | zero => intro rc log; simp [send_email_go]
  | succ fuel ih =>
    intro rc log
    simp only [send_email_go, send_recipient_truthy p, Bool.not_true,
      Bool.false_eq_true, if_false]
    split
    · simp [List.countP_append, List.countP_cons, isSend]
    · split
      · refine le_trans (ih (rc + 1) _) ?_
        simp [List.countP_append, List.countP_cons, isSend]
        omega
      · simp [List.countP_append, List.countP_cons, isSend]

/-- Claim C9: send_email makes at most 3 attempts in total; and when every
attempt fails it makes exactly 3 attempts, sleeping 60 then 120 seconds
before attempts 2 and 3, and ends with only a logged error (the exhausted
outcome), never an exception. -/
theorem c9_theorem (sr : Nat → SendResult) (p : EmailPayload) :
    ((send_email sr p).2).countP isSend ≤ 3
  ∧ ((∀ n, sendAttemptOk (sr n) = false) →
      send_email sr p =
        (.exhausted, [.sendAttempt, .sleep 60, .sendAttempt, .sleep 120,
          .sendAttempt])) := by
  constructor
  · simpa using send_email_go_countP sr p 3 0 []
  · intro h
    simp [send_email, send_email_go, h 0, h 1, h 2, TEST_MODE, TEST_EMAIL,
      Json.truthy, sendWait_one, sendWait_two]

/-- An email payload with every field empty, used as a concrete input. -/
def emptyPayload : EmailPayload :=
  ⟨Json.null, Json.null, Json.null, [], Json.null, Json.null, Json.null,
    Json.null, Json.null, Json.null, Json.null, none⟩

/-- Witness for c9_theorem: with a SendGrid transport that raises on every
attempt, send_email performs exactly 3 attempts with sleeps of 60 and 120
seconds and ends in the exhausted outcome. -/
theorem c9_witness :
    send_email (fun _ => .exn) emptyPayload =
      (.exhausted, [.sendAttempt, .sleep 60, .sendAttempt, .sleep 120,
        .sendAttempt]) :=
  (c9_theorem (fun _ => SendResult.exn) emptyPayload).2 (fun (_ : Nat) => rfl)

/-- Actions of the make_api_call loop beyond the incoming log are only calls
to its own endpoint and sleeps: any other action predicate counts nothing
new. -/
theorem makeApiCallGo_countP (p : Act → Bool) (ep : Endpoint)
    (resp : Nat → HttpResult) (hp : p (.erpCall ep) = false)
    (hs : ∀ t, p (.sleep t) = false) :
    ∀ (fuel n : Nat) (log : List Act),
      ((makeApiCallGo ep resp fuel n log).log).countP p = log.countP p := by
  intro fuel
  induction fuel with
  | zero => intro n log; rfl
  | succ fuel ih =>
    intro n log
    simp only [makeApiCallGo]
    split
    · simp [List.countP_append, List.countP_cons, hp]
    · split
      · split
        · simp [List.countP_append, List.countP_cons, hp]
        · rw [ih]
          simp [List.countP_append, List.countP_cons, hp, hs]
      · simp [List.countP_append, List.countP_cons, hp]

/-- Specialisation of makeApiCallGo_countP to a whole call. -/
theorem make_api_call_countP (p : Act → Bool) (ep : Endpoint)
    (resp : Nat → HttpResult) (hp : p (.erpCall ep) = false)
    (hs : ∀ t, p (.sleep t) = false) :
    ((make_api_call ep resp).log).countP p = 0 := by
  rw [make_api_call, makeApiCallGo_countP p ep resp hp hs]
  rfl

/-- generate_nfce logs exactly the actions of its make_api_call. -/
theorem generate_nfce_log (resp : Nat → HttpResult) :
    (generate_nfce resp).log = (make_api_call .gerarNota resp).log := by
  simp only [generate_nfce]
  split <;> rfl

/-- get_nota_fiscal_link logs exactly the actions of its make_api_call. -/
theorem get_nota_fiscal_link_log (resp : Nat → HttpResult) :
    (get_nota_fiscal_link resp).log = (make_api_call .obterLink resp).log := by
  simp only [get_nota_fiscal_link]
  split <;> rfl

/-- get_client_email_from_tinyerp logs exactly the actions of its
make_api_call. -/
theorem get_client_email_from_tinyerp_log (resp : Nat → HttpResult) :
    (get_client_email_from_tinyerp resp).log =
      (make_api_call .contatosPesquisa resp).log := by
  simp only [get_client_email_from_tinyerp]
  repeat' split
  all_goals rfl

/-- get_client_email logs one BigQuery query plus, on fallback, the contact
search call: any predicate false on those counts nothing. -/
theorem get_client_email_countP (p : Act → Bool) (q : QRes Json)
    (resp : Nat → HttpResult) (hb : p .bqQuery = false)
    (he : p (.erpCall .contatosPesquisa) = false)
    (hs : ∀ t, p (.sleep t) = false) :
    ((get_client_email q resp).log).countP p = 0 := by
  cases q with
  | badRequest => simp [get_client_email, List.countP_cons, hb]
  | failure => simp [get_client_email, List.countP_cons, hb]
  | rows rs =>
    cases hf : rs.find? Json.truthy with
    | some e => simp [get_client_email, hf, List.countP_cons, hb]
    | none =>
      simp [get_client_email, hf, List.countP_cons, hb,
        get_client_email_from_tinyerp_log,
        make_api_call_countP p .contatosPesquisa resp he hs]

/-- Actions of the get_purchase_details loop beyond the incoming log are
only BigQuery queries and sleeps. -/
theorem getPurchaseGo_countP (p : Act → Bool) (q : Nat → QRes PRow)
    (hb : p .bqQuery = false) (hs : ∀ t, p (.sleep t) = false) :
    ∀ (fuel n : Nat) (log : List Act),
      ((getPurchaseGo q fuel n log).log).countP p = log.countP p := by
  intro fuel
  induction fuel with
  | zero => intro n log; rfl
  | succ fuel ih =>
    intro n log
    simp only [getPurchaseGo]
    split
    · simp [List.countP_append, List.countP_cons, hb]
    · split
      · simp [List.countP_append, List.countP_cons, hb]
      · rw [ih]
        simp [List.countP_append, List.countP_cons, hb, hs]

/-- Specialisation of getPurchaseGo_countP to a whole call. -/
theorem get_purchase_details_countP (p : Act → Bool) (q : Nat → QRes PRow)
    (hb : p .bqQuery = false) (hs : ∀ t, p (.sleep t) = false) :
    ((get_purchase_details q).log).countP p = 0 := by
  rw [get_purchase_details, getPurchaseGo_countP p q hb hs]
  rfl

/-- get_daily_checkins always logs exactly one BigQuery query. -/
theorem get_daily_checkins_log (q : QRes Json) :
    (get_daily_checkins q).2 = [.bqQuery] := by
  cases q <;> rfl

/-- get_quarter_spend always logs exactly one BigQuery query. -/
theorem get_quarter_spend_log (q : QRes Json) :
    (get_quarter_spend q).2 = [.bqQuery] := by
  cases q <;> rfl

/-- get_lifetime_spend always logs exactly one BigQuery query. -/
theorem get_lifetime_spend_log (q : QRes Json) :
    (get_lifetime_spend q).2 = [.bqQuery] := by
  cases q <;> rfl

/-- aggregate_email_data only logs BigQuery queries and sleeps. -/
theorem aggregate_countP (p : Act → Bool) (purchaseQ : Nat → QRes PRow)
    (checkinsQ quarterQ lifetimeQ : QRes Json)
    (a b : Json) (c : Option Json) (d : Json)
    (hb : p .bqQuery = false) (hs : ∀ t, p (.sleep t) = false) :
    ((aggregate_email_data purchaseQ checkinsQ quarterQ lifetimeQ
        a b c d).log).countP p = 0 := by
  cases hres : (get_purchase_details purchaseQ).res with
  | error e =>
    simp [aggregate_email_data, hres,
      get_purchase_details_countP p purchaseQ hb hs]
  | ok s =>
    simp [aggregate_email_data, hres, List.countP_append, List.countP_cons,
      get_purchase_details_countP p purchaseQ hb hs, hb,
      get_daily_checkins_log, get_quarter_spend_log, get_lifetime_spend_log]

/-- A loyalty query that raised yields the 0 default (check-ins). -/
theorem get_daily_checkins_failed (q : QRes Json) (h : q.failed = true) :
    get_daily_checkins q = (Json.num 0, [.bqQuery]) := by
  cases q with
  | badRequest => rfl
  | failure => rfl
  | rows rs => simp [QRes.failed] at h

/-- A loyalty query that raised yields the 0 default (quarter spend). -/
theorem get_quarter_spend_failed (q : QRes Json) (h : q.failed = true) :
    get_quarter_spend q = (Json.num 0, [.bqQuery]) := by
  cases q with
  | badRequest => rfl
  | failure => rfl
  | rows rs => simp [QRes.failed] at h

/-- A loyalty query that raised yields the 0 default (lifetime spend). -/
theorem get_lifetime_spend_failed (q : QRes Json) (h : q.failed = true) :
    get_lifetime_spend q = (Json.num 0, [.bqQuery]) := by
  cases q with
  | badRequest => rfl
  | failure => rfl
  | rows rs => simp [QRes.failed] at h

/-- When the first attempt of the purchase-items query returns a nonempty
row set, get_purchase_details succeeds immediately with the summary built
from those rows. -/
theorem get_purchase_details_first_ok (q : Nat → QRes PRow) (r0 : PRow)
    (rest : List PRow) (h : q 1 = .rows (r0 :: rest)) :
    get_purchase_details q =
      ⟨.ok { total_discount := ((rest.getLast?).getD r0).total_discount
             total_paid := ((rest.getLast?).getD r0).total_paid
             payment_method := ((rest.getLast?).getD r0).payment_method
             sub_total := ((rest.getLast?).getD r0).sub_total
             items := (r0 :: rest).map mkItem },
        [.bqQuery]⟩ := by
  simp [get_purchase_details, getPurchaseGo, h, get_purchase_details_once]

/-- When the purchase-items query errors on every attempt with the same
error, get_purchase_details performs 4 attempts and raises the RetryError
wrapping it. -/
theorem get_purchase_details_exhaust (q : Nat → QRes PRow) (e : Err)
    (h : ∀ n, get_purchase_details_once (q n) = .error e) :
    get_purchase_details q =
      ⟨.error (.retryError e),
        [.bqQuery, .sleep (bqWait 1), .bqQuery, .sleep (bqWait 2),
         .bqQuery, .sleep (bqWait 3), .bqQuery]⟩ := by
  simp [get_purchase_details, getPurchaseGo, h 1, h 2, h 3, h 4]

/-- Claim C8: when the check-ins, quarter-spend and lifetime-spend queries
all fail while the items query succeeds with a nonempty row set, the
aggregated EmailPayload has daily_checkins = 0, quarter_spend = 0 and
lifetime_spend = 0 while items stays populated from the items query. -/
theorem c8_theorem (purchaseQ : Nat → QRes PRow)
    (checkinsQ quarterQ lifetimeQ : QRes Json)
    (dados_id client_email client_name : Json) (url : Option Json)
    (r0 : PRow) (rest : List PRow)
    (hi : purchaseQ 1 = .rows (r0 :: rest))
    (h1 : checkinsQ.failed = true) (h2 : quarterQ.failed = true)
    (h3 : lifetimeQ.failed = true) :
    (aggregate_email_data purchaseQ checkinsQ quarterQ lifetimeQ
        dados_id client_email url client_name).res =
      .ok { client_email := client_email
            client_name := client_name
            dados_id := dados_id
            items := (r0 :: rest).map mkItem
            sub_total := ((rest.getLast?).getD r0).sub_total
            total_discount := ((rest.getLast?).getD r0).total_discount
            total_paid := ((rest.getLast?).getD r0).total_paid
            payment_method := ((rest.getLast?).getD r0).payment_method
            daily_checkins := Json.num 0
            quarter_spend := Json.num 0
            lifetime_spend := Json.num 0
            nota_fiscal_url := url } := by
  simp [aggregate_email_data, get_purchase_details_first_ok purchaseQ r0 rest hi,
    get_daily_checkins_failed _ h1, get_quarter_spend_failed _ h2,
    get_lifetime_spend_failed _ h3]

/-- A concrete purchase row. -/
def prowOne : PRow :=
  ⟨.str "item", .num 2, .str "10.00", .str "20.00", .str "0.00",
    .str "20.00", .str "pix", .str "20.00"⟩

/-- Witness for c8_theorem: one successful purchase row, all three loyalty
queries failing. -/
theorem c8_witness :
    (aggregate_email_data (fun _ => .rows [prowOne]) .failure .failure
        .failure (.str "123") (.str "ana@x.com") none (.str "Ana")).res =
      .ok { client_email := .str "ana@x.com"
            client_name := .str "Ana"
            dados_id := .str "123"
            items := [mkItem prowOne]
            sub_total := .str "20.00"
            total_discount := .str "0.00"
            total_paid := .str "20.00"
            payment_method := .str "pix"
            daily_checkins := Json.num 0
            quarter_spend := Json.num 0
            lifetime_spend := Json.num 0
            nota_fiscal_url := none } :=
  c8_theorem (fun _ => QRes.rows [prowOne]) .failure .failure .failure
    (.str "123") (.str "ana@x.com") (.str "Ana") none prowOne [] rfl rfl rfl rfl

/-- Whether a pipeline run reached send_email (built an EmailPayload). -/
def isCompleted : PipeResult → Bool
  | .completed _ _ => true
  | _ => false

/-- Whether a pipeline run completed with an EmailPayload that omits the
nota_fiscal_url key. -/
def completedNoUrl : PipeResult → Bool
  | .completed pl _ => pl.nota_fiscal_url.isNone
  | _ => false

/-- The claim-side reading of "the payload carries a dados.id field": the
payload is a dict whose dados entry is a dict with an id key. -/
def hasDadosId (payload : Json) : Bool :=
  match payload with
  | .obj kvs =>
    match Json.lookup kvs "dados" with
    | some (Json.obj dkvs) => (Json.lookup dkvs "id").isSome
    | _ => false
  | _ => false

/-- The well-formed webhook payload shape of the end-to-end scenarios:
dados with an id and a cliente carrying nome and cpfCnpj. -/
def mkPayload (id nome cpf : Json) : Json :=
  .obj [("dados", .obj [("id", id),
          ("cliente", .obj [("nome", nome), ("cpfCnpj", cpf)])])]

/-- When get_purchase_details raises, aggregate_email_data raises the same
exception whatever the data arguments are. -/
theorem aggregate_res_of_purchase_error (purchaseQ : Nat → QRes PRow)
    (checkinsQ quarterQ lifetimeQ : QRes Json) (e : Err)
    (h : (get_purchase_details purchaseQ).res = .error e) :
    ∀ (a b : Json) (c : Option Json) (d : Json),
      (aggregate_email_data purchaseQ checkinsQ quarterQ lifetimeQ
        a b c d).res = .error e := by
  intro a b c d
  simp [aggregate_email_data, h]

/-- When get_purchase_details raises, the whole pipeline never reaches
send_email: the run does not complete and performs no send attempt, whatever
the payload and the other oracles. -/
theorem process_aborts_of_purchase_error (env : PipeEnv) (payload : Json)
    (e : Err) (h : (get_purchase_details env.purchaseQ).res = .error e) :
    isCompleted (process_webhook_payload env payload).1 = false
  ∧ ((process_webhook_payload env payload).2).countP isSend = 0 := by
  have hagg := aggregate_res_of_purchase_error env.purchaseQ env.checkinsQ
    env.quarterQ env.lifetimeQ e h
  have hg : ((generate_nfce env.nfce).log).countP isSend = 0 := by
    rw [generate_nfce_log]
    exact make_api_call_countP isSend .gerarNota env.nfce rfl (fun t => rfl)
  have hce : ((get_client_email env.emailQ env.contatos).log).countP isSend = 0 :=
    get_client_email_countP isSend env.emailQ env.contatos rfl rfl (fun t => rfl)
  have hlk : ((get_nota_fiscal_link env.link).log).countP isSend = 0 := by
    rw [get_nota_fiscal_link_log]
    exact make_api_call_countP isSend .obterLink env.link rfl (fun t => rfl)
  have hag : ∀ (a b : Json) (c : Option Json) (d : Json),
      ((aggregate_email_data env.purchaseQ env.checkinsQ env.quarterQ
        env.lifetimeQ a b c d).log).countP isSend = 0 := fun a b c d =>
    aggregate_countP isSend env.purchaseQ env.checkinsQ env.quarterQ
      env.lifetimeQ a b c d rfl (fun t => rfl)
  have hlk2 : ∀ o : Option Json, ((link_step env.link o).2).countP isSend = 0 := by
    intro o
    cases o with
    | none => rfl
    | some v =>
      cases hv : v.truthy with
      | false => simp [link_step, hv]
      | true =>
        cases hr : (get_nota_fiscal_link env.link).res with
        | ok u => simp [link_step, hv, hr, hlk]
        | error e2 => simp [link_step, hv, hr, hlk]
  cases hm : Json.mem "dados" payload with
  | error e2 => simp [process_webhook_payload, hm, isCompleted]
  | ok b =>
    cases b with
    | false => simp [process_webhook_payload, hm, isCompleted]
    | true =>
      cases hd : payload.item "dados" with
      | error e2 => simp [process_webhook_payload, hm, hd, isCompleted]
      | ok dados =>
        cases hv : dados.get "id" Json.null with
        | error e2 => simp [process_webhook_payload, hm, hd, hv, isCompleted]
        | ok v =>
          cases ht : v.truthy with
          | false => simp [process_webhook_payload, hm, hd, hv, ht, isCompleted]
          | true =>
            cases hc : dados.get "cliente" (Json.obj []) with
            | error e2 =>
              simp [process_webhook_payload, hm, hd, hv, ht, hc, isCompleted, hg]
            | ok cli =>
              cases hn : cli.get "nome" (Json.str "Unknown Client") with
              | error e2 =>
                simp [process_webhook_payload, hm, hd, hv, ht, hc, hn,
                  isCompleted, hg]
              | ok nome =>
                cases hcpf : cli.get "cpfCnpj" Json.null with
                | error e2 =>
                  simp [process_webhook_payload, hm, hd, hv, ht, hc, hn, hcpf,
                    isCompleted, hg]
                | ok cpf =>
                  cases hnull : cpf.isNull with
                  | true =>
                    simp [process_webhook_payload, hm, hd, hv, ht, hc, hn,
                      hcpf, hnull, isCompleted, hg]
                  | false =>
                    cases hcer : (get_client_email env.emailQ env.contatos).res with
                    | error e2 =>
                      simp [process_webhook_payload, hm, hd, hv, ht, hc, hn,
                        hcpf, hnull, hcer, isCompleted, List.countP_append,
                        hg, hce]
                    | ok cemail =>
                      cases hct : cemail.truthy with
                      | false =>
                        simp [process_webhook_payload, hm, hd, hv, ht, hc, hn,
                          hcpf, hnull, hcer, hct, isCompleted,
                          List.countP_append, hg, hce]
                      | true =>
                        simp [process_webhook_payload, hm, hd, hv, ht, hc, hn,
                          hcpf, hnull, hcer, hct, hagg, isCompleted,
                          List.countP_append, hg, hce, hlk2, hag]

/-- Claim C3: when the purchase-items query returns zero rows on every
attempt, get_purchase_details performs its 4 attempts and then raises the
incomplete-data condition (the RetryError wrapping the purchase-not-found
exception); for any payload the pipeline then never completes and sends no
email, and the exception is absorbed by the outer handler (the run ends in a
PipeResult, never an escaping exception). -/
theorem c3_theorem (env : PipeEnv) (payload : Json)
    (h : ∀ n, env.purchaseQ n = QRes.rows []) :
    get_purchase_details env.purchaseQ =
      ⟨.error (.retryError .purchaseNotFound),
        [.bqQuery, .sleep (bqWait 1), .bqQuery, .sleep (bqWait 2),
         .bqQuery, .sleep (bqWait 3), .bqQuery]⟩
  ∧ ((get_purchase_details env.purchaseQ).log).countP isBq = 4
  ∧ isCompleted (process_webhook_payload env payload).1 = false
  ∧ ((process_webhook_payload env payload).2).countP isSend = 0 := by
  have hone : ∀ n, get_purchase_details_once (env.purchaseQ n) =
      .error .purchaseNotFound := by
    intro n
    rw [h n]
    rfl
  have hp := get_purchase_details_exhaust env.purchaseQ .purchaseNotFound hone
  have hres : (get_purchase_details env.purchaseQ).res =
      .error (.retryError .purchaseNotFound) := by rw [hp]
  have habort := process_aborts_of_purchase_error env payload _ hres
  refine ⟨hp, ?_, habort.1, habort.2⟩
  rw [hp]
  rfl

/-- A concrete environment whose purchase-items query always returns zero
rows. -/
def envC3 : PipeEnv :=
  { nfce := fun _ => .exn
    link := fun _ => .exn
    contatos := fun _ => .exn
    emailQ := .rows [.str "ana@x.com"]
    purchaseQ := fun _ => .rows []
    checkinsQ := .rows [.num 3]
    quarterQ := .rows [.num 100]
    lifetimeQ := .rows [.num 500]
    send := fun _ => .status 202 }

/-- Witness for c3_theorem at the concrete environment envC3 and a
well-formed payload. -/
theorem c3_witness :
    get_purchase_details envC3.purchaseQ =
      ⟨.error (.retryError .purchaseNotFound),
        [.bqQuery, .sleep (bqWait 1), .bqQuery, .sleep (bqWait 2),
         .bqQuery, .sleep (bqWait 3), .bqQuery]⟩
  ∧ ((get_purchase_details envC3.purchaseQ).log).countP isBq = 4
  ∧ isCompleted (process_webhook_payload envC3
      (mkPayload (.str "123") (.str "Ana") (.str "111"))).1 = false
  ∧ ((process_webhook_payload envC3
      (mkPayload (.str "123") (.str "Ana") (.str "111"))).2).countP isSend = 0 :=
  c3_theorem envC3 (mkPayload (.str "123") (.str "Ana") (.str "111"))
    (fun (_ : Nat) => rfl)

/-- A truthy dados.id reached through the subscript and .get chain of
process_webhook_payload implies the payload carries a dados.id field. -/
theorem hasDadosId_of_truthy (payload dados v : Json)
    (hd : payload.item "dados" = .ok dados)
    (hv : dados.get "id" Json.null = .ok v) (ht : v.truthy = true) :
    hasDadosId payload = true := by
  cases payload with
  | null => simp [Json.item] at hd
  | bool b => simp [Json.item] at hd
  | num n => simp [Json.item] at hd
  | str s => simp [Json.item] at hd
  | arr xs => simp [Json.item] at hd
  | obj kvs =>
    cases hl : Json.lookup kvs "dados" with
    | none => simp [Json.item, hl] at hd
    | some d =>
      have hdd : d = dados := by simpa [Json.item, hl] using hd
      subst hdd
      cases d with
      | null => simp [Json.get] at hv
      | bool b => simp [Json.get] at hv
      | num n => simp [Json.get] at hv
      | str s => simp [Json.get] at hv
      | arr xs => simp [Json.get] at hv
      | obj dkvs =>
        simp only [hasDadosId, hl]
        cases hi : Json.lookup dkvs "id" with
        | some w => simp
        | none =>
          simp [Json.get, hi] at hv
          subst hv
          simp [Json.truthy] at ht

/-- Claim C4: a payload without a dados.id field makes
process_webhook_payload return before any external action: no ERP call, no
warehouse query, no send attempt (the action log is empty), and the run
never completes. -/
theorem c4_theorem (env : PipeEnv) (payload : Json)
    (h : hasDadosId payload = false) :
    (process_webhook_payload env payload).2 = []
  ∧ isCompleted (process_webhook_payload env payload).1 = false := by
  cases hm : Json.mem "dados" payload with
  | error e => simp [process_webhook_payload, hm, isCompleted]
  | ok b =>
    cases b with
    | false => simp [process_webhook_payload, hm, isCompleted]
    | true =>
      cases hd : payload.item "dados" with
      | error e => simp [process_webhook_payload, hm, hd, isCompleted]
      | ok dados =>
        cases hv : dados.get "id" Json.null with
        | error e => simp [process_webhook_payload, hm, hd, hv, isCompleted]
        | ok v =>
          cases ht : v.truthy with
          | false => simp [process_webhook_payload, hm, hd, hv, ht, isCompleted]
          | true =>
            exact absurd (hasDadosId_of_truthy payload dados v hd hv ht)
              (by simp [h])

/-- Witness for c4_theorem: the empty-dict payload performs nothing. -/
theorem c4_witness :
    (process_webhook_payload envC3 (Json.obj [])).2 = []
  ∧ isCompleted (process_webhook_payload envC3 (Json.obj [])).1 = false :=
  c4_theorem envC3 (Json.obj []) rfl

/-- The send_email loop never removes attempts already logged. -/
theorem send_email_go_mono (sr : Nat → SendResult) (p : EmailPayload) :
    ∀ (fuel rc : Nat) (log : List Act),
      log.countP isSend ≤ ((send_email_go sr p rc fuel log).2).countP isSend := by
  intro fuel
  induction fuel with
  | zero => intro rc log; simp [send_email_go]
  | succ fuel ih =>
    intro rc log
    simp only [send_email_go, send_recipient_truthy p, Bool.not_true,
      Bool.false_eq_true, if_false]
    split
    · simp [List.countP_append, List.countP_cons, isSend]
    · split
      · refine le_trans ?_ (ih (rc + 1) _)
        simp [List.countP_append, List.countP_cons, isSend]
      · simp [List.countP_append, List.countP_cons, isSend]

/-- With TEST_MODE set the recipient is always present, so send_email always
performs at least one send attempt. -/
theorem send_email_countP_pos (sr : Nat → SendResult) (p : EmailPayload) :
    1 ≤ ((send_email sr p).2).countP isSend := by
  unfold send_email
  simp only [send_email_go, send_recipient_truthy p, Bool.not_true,
    Bool.false_eq_true, if_false]
  split
  · simp [List.countP_append, isSend]
  · split
    · refine le_trans ?_ (send_email_go_mono sr p 2 1 _)
      simp [List.countP_append, List.countP_cons, isSend]
    · simp [List.countP_append, isSend]

/-- Actions of the send_email loop beyond the incoming log are only send
attempts and sleeps. -/
theorem send_email_go_countP_other (p : Act → Bool) (sr : Nat → SendResult)
    (payload : EmailPayload) (hsend : p .sendAttempt = false)
    (hs : ∀ t, p (.sleep t) = false) :
    ∀ (fuel rc : Nat) (log : List Act),
      ((send_email_go sr payload rc fuel log).2).countP p = log.countP p := by
  intro fuel
  induction fuel with
  | zero => intro rc log; rfl
  | succ fuel ih =>
    intro rc log
    simp only [send_email_go, send_recipient_truthy payload, Bool.not_true,
      Bool.false_eq_true, if_false]
    split
    · simp [List.countP_append, List.countP_cons, hsend]
    · split
      · rw [ih]
        simp [List.countP_append, List.countP_cons, hsend, hs]
      · simp [List.countP_append, List.countP_cons, hsend]

/-- When get_purchase_details succeeds, aggregate_email_data returns the
fully assembled EmailPayload; the nota_fiscal_url field is exactly the
argument, absent when the argument is None. -/
theorem aggregate_ok (purchaseQ : Nat → QRes PRow)
    (checkinsQ quarterQ lifetimeQ : QRes Json)
    (a b : Json) (c : Option Json) (d : Json) (ps : PurchaseSummary)
    (hp : (get_purchase_details purchaseQ).res = .ok ps) :
    (aggregate_email_data purchaseQ checkinsQ quarterQ lifetimeQ
        a b c d).res =
      .ok { client_email := b
            client_name := d
            dados_id := a
            items := ps.items
            sub_total := ps.sub_total
            total_discount := ps.total_discount
            total_paid := ps.total_paid
            payment_method := ps.payment_method
            daily_checkins := (get_daily_checkins checkinsQ).1
            quarter_spend := (get_quarter_spend quarterQ).1
            lifetime_spend := (get_lifetime_spend lifetimeQ).1
            nota_fiscal_url := c } := by
  simp [aggregate_email_data, hp]

/-- The EmailPayload assembled by a completed run whose document generation
failed: nota_fiscal_url is absent and the loyalty fields come from the three
loyalty getters. -/
def builtPayload (env : PipeEnv) (id ce nome : Json) (ps : PurchaseSummary) :
    EmailPayload :=
  { client_email := ce
    client_name := nome
    dados_id := id
    items := ps.items
    sub_total := ps.sub_total
    total_discount := ps.total_discount
    total_paid := ps.total_paid
    payment_method := ps.payment_method
    daily_checkins := (get_daily_checkins env.checkinsQ).1
    quarter_spend := (get_quarter_spend env.quarterQ).1
    lifetime_spend := (get_lifetime_spend env.lifetimeQ).1
    nota_fiscal_url := none }

/-- Claim C5: when fiscal-document generation fails with any error while the
rest of the invocation succeeds (truthy dados.id, cpf present, resolvable
truthy email, successful items query), the pipeline still completes, the
link lookup is never attempted, the built EmailPayload omits the
nota_fiscal_url key, and the email is dispatched (at least one send
attempt). -/
theorem c5_theorem (env : PipeEnv) (id nome cpf ce : Json) (ge : Err)
    (ps : PurchaseSummary)
    (hid : id.truthy = true) (hcpf : cpf.isNull = false)
    (hg : (generate_nfce env.nfce).res = .error ge)
    (hc : (get_client_email env.emailQ env.contatos).res = .ok ce)
    (hce : ce.truthy = true)
    (hp : (get_purchase_details env.purchaseQ).res = .ok ps) :
    completedNoUrl (process_webhook_payload env (mkPayload id nome cpf)).1 = true
  ∧ ((process_webhook_payload env (mkPayload id nome cpf)).2).countP isLink = 0
  ∧ 1 ≤ ((process_webhook_payload env (mkPayload id nome cpf)).2).countP isSend := by
  have hag : (aggregate_email_data env.purchaseQ env.checkinsQ env.quarterQ
      env.lifetimeQ id ce none nome).res = .ok (builtPayload env id ce nome ps) :=
    aggregate_ok env.purchaseQ env.checkinsQ env.quarterQ env.lifetimeQ
      id ce none nome ps hp
  have hround : process_webhook_payload env (mkPayload id nome cpf) =
      (.completed (builtPayload env id ce nome ps)
          (send_email env.send (builtPayload env id ce nome ps)).1,
        (generate_nfce env.nfce).log ++
          (get_client_email env.emailQ env.contatos).log ++ [] ++
          (aggregate_email_data env.purchaseQ env.checkinsQ env.quarterQ
            env.lifetimeQ id ce none nome).log ++
          (send_email env.send (builtPayload env id ce nome ps)).2) := by
    simp [process_webhook_payload, mkPayload, Json.mem, Json.item, Json.get,
      Json.lookup, hid, hcpf, hg, hc, hce, hag, link_step]
  rw [hround]
  refine ⟨rfl, ?_, ?_⟩
  · have h1 : ((generate_nfce env.nfce).log).countP isLink = 0 := by
      rw [generate_nfce_log]
      exact make_api_call_countP isLink .gerarNota env.nfce rfl (fun t => rfl)
    have h2 : ((get_client_email env.emailQ env.contatos).log).countP isLink = 0 :=
      get_client_email_countP isLink env.emailQ env.contatos rfl rfl (fun t => rfl)
    have h3 : ((aggregate_email_data env.purchaseQ env.checkinsQ env.quarterQ
        env.lifetimeQ id ce none nome).log).countP isLink = 0 :=
      aggregate_countP isLink env.purchaseQ env.checkinsQ env.quarterQ
        env.lifetimeQ id ce none nome rfl (fun t => rfl)
    have h4 := send_email_go_countP_other isLink env.send
      (builtPayload env id ce nome ps) rfl (fun t => rfl) 3 0 []
    simp [List.countP_append, h1, h2, h3, send_email, h4]
  · have h1 : ((generate_nfce env.nfce).log).countP isSend = 0 := by
      rw [generate_nfce_log]
      exact make_api_call_countP isSend .gerarNota env.nfce rfl (fun t => rfl)
    have h2 : ((get_client_email env.emailQ env.contatos).log).countP isSend = 0 :=
      get_client_email_countP isSend env.emailQ env.contatos rfl rfl (fun t => rfl)
    have h3 : ((aggregate_email_data env.purchaseQ env.checkinsQ env.quarterQ
        env.lifetimeQ id ce none nome).log).countP isSend = 0 :=
      aggregate_countP isSend env.purchaseQ env.checkinsQ env.quarterQ
        env.lifetimeQ id ce none nome rfl (fun t => rfl)
    have h4 := send_email_countP_pos env.send (builtPayload env id ce nome ps)
    rw [List.countP_append, List.countP_append, List.countP_append,
      List.countP_append, h1, h2, h3, List.countP_nil]
    omega

/-- A generate-document response with status "2": ValidationError. -/
def nfceFailBody : Json :=
  .obj [("retorno", .obj [("status_processamento", .str "2")])]

/-- A concrete environment where document generation fails with
ValidationError while everything else succeeds. -/
def envC5 : PipeEnv :=
  { nfce := fun _ => .body nfceFailBody
    link := fun _ => .exn
    contatos := fun _ => .exn
    emailQ := .rows [.str "ana@x.com"]
    purchaseQ := fun _ => .rows [prowOne]
    checkinsQ := .rows [.num 3]
    quarterQ := .rows [.num 100]
    lifetimeQ := .rows [.num 500]
    send := fun _ => .status 202 }

/-- Witness for c5_theorem at the concrete environment envC5. -/
theorem c5_witness :
    completedNoUrl (process_webhook_payload envC5
      (mkPayload (.str "123") (.str "Ana") (.str "111"))).1 = true
  ∧ ((process_webhook_payload envC5
      (mkPayload (.str "123") (.str "Ana") (.str "111"))).2).countP isLink = 0
  ∧ 1 ≤ ((process_webhook_payload envC5
      (mkPayload (.str "123") (.str "Ana") (.str "111"))).2).countP isSend :=
  c5_theorem envC5 (.str "123") (.str "Ana") (.str "111") (.str "ana@x.com")
    .validationError
    ⟨.str "0.00", .str "20.00", .str "pix", .str "20.00", [mkItem prowOne]⟩
    rfl rfl rfl rfl rfl rfl

/-- Claim C7: customer lookup queries the warehouse first and returns its
first truthy email without touching the ERP; on a warehouse miss (no row or
no truthy email) it falls back to the ERP contact search and takes the first
contact email when truthy; and when both miss, the pipeline returns the
no-email early return and sends nothing (and, the result being an ordinary
early return, no exception propagates). -/
theorem c7_theorem :
    (∀ (env : PipeEnv) (rs : List Json) (e : Json),
      env.emailQ = QRes.rows rs → rs.find? Json.truthy = some e →
      get_client_email env.emailQ env.contatos = ⟨.ok e, [.bqQuery]⟩)
  ∧ (∀ (env : PipeEnv) (rs : List Json) (j cts c0 ct e : Json),
      env.emailQ = QRes.rows rs → rs.find? Json.truthy = none →
      (make_api_call .contatosPesquisa env.contatos).res = .ok j →
      contatosOf j = .ok cts → cts.truthy = true → cts.item0 = .ok c0 →
      c0.get "contato" (Json.obj []) = .ok ct →
      ct.get "email" Json.null = .ok e → e.truthy = true →
      get_client_email env.emailQ env.contatos =
        ⟨.ok e, .bqQuery :: (make_api_call .contatosPesquisa env.contatos).log⟩)
  ∧ (∀ (env : PipeEnv) (id nome cpf : Json) (rs : List Json) (v : Json),
      id.truthy = true → cpf.isNull = false →
      env.emailQ = QRes.rows rs → rs.find? Json.truthy = none →
      (get_client_email_from_tinyerp env.contatos).res = .ok v →
      v.truthy = false →
      (process_webhook_payload env (mkPayload id nome cpf)).1 = .returnedNoEmail
      ∧ ((process_webhook_payload env
          (mkPayload id nome cpf)).2).countP isSend = 0) := by
  refine ⟨?_, ?_, ?_⟩
  · intro env rs e hq hf
    simp [get_client_email, hq, hf]
  · intro env rs j cts c0 ct e hq hf hj hcts ht hc0 hct he het
    simp [get_client_email, hq, hf, get_client_email_from_tinyerp, hj, hcts,
      ht, hc0, hct, he, het]
  · intro env id nome cpf rs v hid hcpf hq hf hres hv
    have hcer : (get_client_email env.emailQ env.contatos).res = .ok v := by
      simp [get_client_email, hq, hf, hres]
    have hproc : process_webhook_payload env (mkPayload id nome cpf) =
        (.returnedNoEmail,
          (generate_nfce env.nfce).log ++
            (get_client_email env.emailQ env.contatos).log) := by
      simp [process_webhook_payload, mkPayload, Json.mem, Json.item, Json.get,
        Json.lookup, hid, hcpf, hcer, hv]
    rw [hproc]
    refine ⟨rfl, ?_⟩
    have h1 : ((generate_nfce env.nfce).log).countP isSend = 0 := by
      rw [generate_nfce_log]
      exact make_api_call_countP isSend .gerarNota env.nfce rfl (fun t => rfl)
    have h2 : ((get_client_email env.emailQ env.contatos).log).countP isSend = 0 :=
      get_client_email_countP isSend env.emailQ env.contatos rfl rfl
        (fun t => rfl)
    rw [List.countP_append, h1, h2]

/-- A contact-search response whose first contact carries an email. -/
def contatosHitBody : Json :=
  .obj [("retorno", .obj [("status_processamento", .str "3"),
          ("contatos", .arr [.obj [("contato",
            .obj [("email", .str "ana@x.com")])]])])]

/-- An environment whose warehouse row has a NULL email and whose ERP
contact search finds one. -/
def envC7 : PipeEnv :=
  { nfce := fun _ => .exn
    link := fun _ => .exn
    contatos := fun _ => .body contatosHitBody
    emailQ := .rows [Json.null]
    purchaseQ := fun _ => .rows [prowOne]
    checkinsQ := .rows [.num 3]
    quarterQ := .rows [.num 100]
    lifetimeQ := .rows [.num 500]
    send := fun _ => .status 202 }

/-- A contact-search response with an empty contatos list. -/
def contatosMissBody : Json :=
  .obj [("retorno", .obj [("status_processamento", .str "3"),
          ("contatos", .arr [])])]

/-- An environment where both the warehouse and the ERP contact search
miss. -/
def envC7miss : PipeEnv :=
  { envC7 with
    contatos := fun _ => .body contatosMissBody
    emailQ := .rows [] }

/-- Witness for c7_theorem: the warehouse hit, the ERP fallback hit, and the
double-miss no-email return, each at a concrete environment. -/
theorem c7_witness :
    get_client_email envC5.emailQ envC5.contatos =
      ⟨.ok (.str "ana@x.com"), [.bqQuery]⟩
  ∧ get_client_email envC7.emailQ envC7.contatos =
      ⟨.ok (.str "ana@x.com"), [.bqQuery, .erpCall .contatosPesquisa]⟩
  ∧ ((process_webhook_payload envC7miss
        (mkPayload (.str "123") (.str "Ana") (.str "111"))).1 = .returnedNoEmail
     ∧ ((process_webhook_payload envC7miss
        (mkPayload (.str "123") (.str "Ana") (.str "111"))).2).countP isSend = 0) :=
  ⟨c7_theorem.1 envC5 [.str "ana@x.com"] (.str "ana@x.com") rfl rfl,
   c7_theorem.2.1 envC7 [Json.null] contatosHitBody
     (.arr [.obj [("contato", .obj [("email", .str "ana@x.com")])]])
     (.obj [("contato", .obj [("email", .str "ana@x.com")])])
     (.obj [("email", .str "ana@x.com")])
     (.str "ana@x.com") rfl rfl rfl rfl rfl rfl rfl rfl rfl,
   c7_theorem.2.2 envC7miss (.str "123") (.str "Ana") (.str "111") []
     Json.null rfl rfl rfl rfl rfl rfl⟩
